import Mathlib

/-!
Verification of the LangGraph state tutorial (`00_understanding_state.ipynb`).

The notebook defines two TypedDict states (`BasicState` with an integer
`count`, `ComplexState` adding a `messages` list of human/AI messages),
state-modification functions `increment_count` and `add_message`, and two
single-node workflows whose node functions are `increment_node` and
`process_message`.  We embed these as Lean definitions and prove the
specified properties.
-/

/-- A conversation message: either a `HumanMessage` or an `AIMessage`,
each carrying a string content. -/
inductive Message where
  | human (content : String)
  | ai (content : String)
deriving DecidableEq

/-- Content of a message (the `.content` attribute). -/
def Message.content : Message → String
  | .human c => c
  | .ai c => c

/-- `BasicState`: a TypedDict with an integer `count`. -/
structure BasicState where
  count : Int
deriving DecidableEq

/-- `ComplexState`: a TypedDict with an integer `count` and a list of
messages (the conversation history). -/
structure ComplexState where
  count : Int
  messages : List Message
deriving DecidableEq

/-- `increment_count(state)`: returns `BasicState(count=state["count"] + 1)`. -/
def increment_count (state : BasicState) : BasicState :=
  ⟨state.count + 1⟩

/-- `add_message(state, message, is_human=True)`: builds a `HumanMessage`
if `is_human` else an `AIMessage`, and returns a new `ComplexState` with
the same count and the message appended. -/
def add_message (state : ComplexState) (message : String)
    (is_human : Bool := true) : ComplexState :=
  let new_message := if is_human then Message.human message else Message.ai message
  ⟨state.count, state.messages ++ [new_message]⟩

/-- The node function of the simple graph:
`increment_node(state)` returns the update `{"count": state["count"] + 1}`. -/
def increment_node (state : BasicState) : BasicState :=
  ⟨state.count + 1⟩

/-- Invoking the compiled simple graph: the single node `increment` runs
once and its update (which covers the whole state) becomes the result. -/
def simple_graph_invoke (state : BasicState) : BasicState :=
  increment_node state

/-- `state["messages"][-1].content if state["messages"] else "No messages yet"`:
the content of the last message, or the placeholder on an empty history. -/
def last_content (state : ComplexState) : String :=
  match state.messages.getLast? with
  | some m => m.content
  | none => "No messages yet"

/-- The f-string `f"Received: {last_message}. Count is now {state['count'] + 1}"`. -/
def response_text (state : ComplexState) : String :=
  "Received: " ++ last_content state ++ ". Count is now " ++ toString (state.count + 1)

/-- The node function of the complex graph: `process_message(state)` returns
the update `{"count": state["count"] + 1,
"messages": state["messages"] + [AIMessage(content=response)]}`. -/
def process_message (state : ComplexState) : ComplexState :=
  ⟨state.count + 1, state.messages ++ [Message.ai (response_text state)]⟩

/-- `process_message` with the `[-1]` list access made explicitly fallible:
indexing an empty list raises in Python, so the unguarded access returns
`none` there; the emptiness guard selects the placeholder instead. -/
def process_message_checked (state : ComplexState) : Option ComplexState :=
  if state.messages.isEmpty then
    let response :=
      "Received: " ++ "No messages yet" ++ ". Count is now " ++ toString (state.count + 1)
    some ⟨state.count + 1, state.messages ++ [Message.ai response]⟩
  else
    match (state.messages.getLast?).map Message.content with
    | none => none
    | some lm =>
      let response := "Received: " ++ lm ++ ". Count is now " ++ toString (state.count + 1)
      some ⟨state.count + 1, state.messages ++ [Message.ai response]⟩

/-- Invoking the compiled complex graph: the single node `process` runs once
and its update (which covers the whole state) becomes the result. -/
def complex_graph_invoke (state : ComplexState) : ComplexState :=
  process_message state

/-- C1: `add_message(r, t, b)` keeps the count, extends the messages by one,
the new last entry is a human message with content `t` when `b` is true and
an AI message with content `t` otherwise, and the prior entries are exactly
`r.messages` unchanged and in order. -/
theorem add_message_spec (r : ComplexState) (t : String) (b : Bool) :
    (add_message r t b).count = r.count ∧
    (add_message r t b).messages.length = r.messages.length + 1 ∧
    (add_message r t b).messages.getLast? =
      some (if b then Message.human t else Message.ai t) ∧
    (add_message r t b).messages.take r.messages.length = r.messages := by
  refine ⟨rfl, ?_, ?_, ?_⟩ <;>
    simp [add_message, List.getLast?_concat, List.take_left]

/-- C2: `increment_count(r)` returns a record whose count is `r.count + 1`
and which has no other field altered (the result is exactly `⟨r.count + 1⟩`). -/
theorem increment_count_spec (r : BasicState) :
    increment_count r = ⟨r.count + 1⟩ := rfl

/-- C3: invoking the compiled complex workflow on
`{count: 0, messages: [human "Hello, LangGraph!"]}` yields exactly
`{count: 1, messages: [human "Hello, LangGraph!",
ai "Received: Hello, LangGraph!. Count is now 1"]}`, and the step computes
the update `{count: r.count + 1, messages: r.messages ++ [ai response]}`. -/
theorem complex_graph_run :
    complex_graph_invoke ⟨0, [Message.human "Hello, LangGraph!"]⟩ =
      ⟨1, [Message.human "Hello, LangGraph!",
           Message.ai "Received: Hello, LangGraph!. Count is now 1"]⟩ := by
  decide

/-- C4: invoking the compiled simple workflow on `{count: 0}` yields
`{count: 1}`. -/
theorem simple_graph_run :
    simple_graph_invoke ⟨0⟩ = ⟨1⟩ := rfl

/-- C5: invoking the complex workflow on `{count: 0, messages: []}` yields
count 1, and the newly appended AI entry's text contains the literal
placeholder "No messages yet". -/
theorem complex_graph_empty_run :
    (complex_graph_invoke ⟨0, []⟩).count = 1 ∧
    ∃ pre post, (complex_graph_invoke ⟨0, []⟩).messages.getLast? =
      some (Message.ai (pre ++ "No messages yet" ++ post)) :=
  ⟨rfl, "Received: ", ". Count is now 1", by decide⟩

/-- C6: `increment_count` is not idempotent: applying it twice adds 2 to the
count, applying it once adds 1, and those two results always differ. -/
theorem increment_count_not_idempotent (r : BasicState) :
    (increment_count (increment_count r)).count = r.count + 2 ∧
    (increment_count r).count = r.count + 1 ∧
    (increment_count (increment_count r)).count ≠ (increment_count r).count := by
  refine ⟨?_, rfl, ?_⟩ <;> (simp [increment_count]; try omega)

/-- C7: append-only invariant: both `add_message` (with either flag) and the
complex workflow's step `process_message` produce a messages sequence that is
exactly the prior sequence followed by one appended entry. -/
theorem messages_append_only (r : ComplexState) (t : String) (b : Bool) :
    (∃ m, (add_message r t b).messages = r.messages ++ [m]) ∧
    (∃ m, (process_message r).messages = r.messages ++ [m]) :=
  ⟨⟨_, rfl⟩, ⟨_, rfl⟩⟩

/-- C8: the count embedded in the generated response text ("Count is now
...") equals the count returned in the step's update, for every record. -/
theorem response_count_consistent (r : ComplexState) :
    ∃ pre, (process_message r).messages.getLast? =
      some (Message.ai (pre ++ toString ((process_message r).count))) := by
  refine ⟨"Received: " ++ last_content r ++ ". Count is now ", ?_⟩
  simp [process_message, response_text, List.getLast?_concat]

/-- C9: the complex workflow's step is total: the fallible `[-1]` access is
guarded by the emptiness check, so the out-of-bounds branch is unreachable
and the checked step succeeds on every record, agreeing with the total one. -/
theorem process_message_total (r : ComplexState) :
    process_message_checked r = some (process_message r) := by
  obtain ⟨c, msgs⟩ := r
  cases msgs with
  | nil => rfl
  | cons a as =>
    obtain ⟨m, hm⟩ : ∃ m, (a :: as).getLast? = some m :=
      ⟨(a :: as).getLast (by simp), List.getLast?_eq_getLast _ _⟩
    simp [process_message_checked, process_message, response_text, last_content, hm]

/-- C10: calling `add_message` without the `is_human` argument uses the
default `true`, so it equals the explicit human-tagged call. -/
theorem add_message_default (r : ComplexState) (t : String) :
    add_message r t = add_message r t true := rfl
